import Mathlib

/-!
Verification of the LSP server skeleton in `src/main.rs`.

The program is a stdio JSON-RPC (LSP) server built on the `lsp_server`
crate.  `main` builds a `ServerCapabilities` value with exactly the
definition provider and the code-action provider set, runs the
`Connection::initialize` handshake, and then enters `main_loop`, which
receives messages from the connection's channel and

  * for a request: first calls `Connection::handle_shutdown` (which, on a
    "shutdown" request, replies ok and then expects an "exit" notification,
    returning `true` so that `main_loop` returns `Ok(())`); then tries to
    extract a `GotoDefinition` request — on success it replies with
    `Some(GotoDefinitionResponse::Array(vec![]))`, on a params decode error
    it panics, and on a method mismatch it drops the request;
  * for a response or a notification: only logs it;
  * when `recv` fails (channel disconnected) it breaks the loop and
    returns `Ok(())`.

Whenever `main_loop` returns `Ok(())`, `main` proceeds to
`io_threads.join()` (line 99) while still holding the `Connection` inside
the `Arc` bound on line 47; the writer thread of `Connection::stdio`
finishes only once every sender into its channel is dropped, and one
sender lives in that still-held `Connection`, so the join blocks forever
and the process never exits (see `processEnd`).

The model below is a shallow embedding of that code.  Messages are
already-decoded JSON-RPC messages (the byte-level framing of the
`lsp_server` transport is not modelled); the incoming channel is a finite
list of messages, the end of the list standing for channel disconnection.
The bodies of the `lsp_server` library functions that the program calls
(`Connection::initialize` = `initialize_start` + `initialize_finish`,
`Connection::handle_shutdown`, and the stdio reader thread that forwards
messages until it has forwarded an "exit" notification) are embedded from
that crate's source, since the program's behaviour runs through them.
-/

/-- Model of `serde_json::Value`: a JSON value.  Numbers are modelled as
integers (no message handled by this program carries a non-integer
number that the code inspects). -/
inductive Json where
  | null : Json
  | bool (b : Bool) : Json
  | num (n : Int) : Json
  | str (s : String) : Json
  | arr (elems : List Json) : Json
  | obj (fields : List (String × Json)) : Json
  deriving Repr

/-- Field lookup in a JSON object's field list (models access to a
`serde_json::Map`, which holds at most one value per key). -/
def jlookup : List (String × Json) → String → Option Json
  | [], _ => none
  | (k, v) :: rest, key => if k = key then some v else jlookup rest key

/-- Model of `lsp_server::RequestId`: an i32 or a string (the crate stores
a number or a string). -/
inductive RequestId where
  | num (n : Int) : RequestId
  | str (s : String) : RequestId
  deriving Repr, DecidableEq

/-- Model of `lsp_server::Request`. -/
structure Request where
  id : RequestId
  method : String
  params : Json
  deriving Repr

/-- Model of `lsp_server::ResponseError` (the `data` field, unused by this
program, is omitted). -/
structure ResponseError where
  code : Int
  message : String
  deriving Repr, DecidableEq

/-- Model of `lsp_server::Response`. -/
structure Response where
  id : RequestId
  result : Option Json
  error : Option ResponseError
  deriving Repr

/-- Model of `lsp_server::Notification`. -/
structure Notification where
  method : String
  params : Json
  deriving Repr

/-- Model of `lsp_server::Message`. -/
inductive Message where
  | request (r : Request) : Message
  | response (r : Response) : Message
  | notification (n : Notification) : Message
  deriving Repr

/-- Result of decoding `lsp_types::GotoDefinitionParams` from JSON: the
fields the schema requires (`textDocument.uri`, `position.line`,
`position.character`). -/
structure GotoDefinitionParams where
  uri : String
  line : Nat
  character : Nat
  deriving Repr, DecidableEq

/-- Model of `serde_json::from_value::<GotoDefinitionParams>`: the params
must be an object with a `textDocument` object holding a string `uri` and
a `position` object holding `line` and `character` as u32 numbers.

This model is deliberately one-sided.  Everything it rejects (`none`) the
real serde decode rejects too, since serde checks the same required
members and types — so theorems quantifying over the `none` region are
sound.  But the model is wider on acceptance: it takes any string as a
uri, whereas the crate's deserializer runs the URL parser and rejects
strings like `"zzz"`, and it ignores present-but-ill-typed optional
members (e.g. a flattened `workDoneToken`) that would make serde fail.
Theorems that assert behaviour on the success region therefore restrict
themselves with `gotoParamsAccepted` below, a conservative region on
which this model and the real decode provably agree. -/
def decodeGotoDefinitionParams : Json → Option GotoDefinitionParams
  | Json.obj fields =>
    match jlookup fields "textDocument", jlookup fields "position" with
    | some (Json.obj td), some (Json.obj pos) =>
      match jlookup td "uri", jlookup pos "line", jlookup pos "character" with
      | some (Json.str u), some (Json.num l), some (Json.num c) =>
        if 0 ≤ l ∧ l < 2 ^ 32 ∧ 0 ≤ c ∧ c < 2 ^ 32 then
          some ⟨u, l.toNat, c.toNat⟩
        else none
      | _, _, _ => none
    | _, _ => none
  | _ => none

/-- Model of `serde_json::from_value::<InitializeParams>` as used at the
top of `main_loop`: `InitializeParams` requires a `capabilities` field
holding the client-capabilities object; every other field is optional.

Like `decodeGotoDefinitionParams`, this model is wide on acceptance: it
ignores present-but-ill-typed optional members (e.g. a string
`processId`) that would make the real decode fail and `main_loop` return
`Err` at `main.rs` line 153.  Theorems that assert behaviour past this
decode restrict themselves with `initializeParamsAccepted` below, a
conservative region on which the model and the real decode agree. -/
def decodeInitializeParams : Json → Option Json
  | Json.obj fields =>
    match jlookup fields "capabilities" with
    | some (Json.obj caps) => some (Json.obj caps)
    | _ => none
  | _ => none

/-- How a run of `main_loop` (or of the whole `main` body up to
`io_threads.join()`) ends: `ok` is `Ok(())` — after which `main` still
has to get through `io_threads.join()`, see `processEnd` —
`protocolError` is an `Err` propagated out, `panicked` is a panic. -/
inductive Outcome where
  | ok : Outcome
  | protocolError (msg : String) : Outcome
  | panicked (msg : String) : Outcome
  deriving Repr, DecidableEq

/-- A run of (part of) the server: the messages written to the outgoing
channel, in order, and how the run ended. -/
structure RunResult where
  emitted : List Message
  outcome : Outcome
  deriving Repr

/-- Prefix one emitted message onto a run result. -/
def RunResult.prepend (m : Message) (r : RunResult) : RunResult :=
  ⟨m :: r.emitted, r.outcome⟩

/-- The error message `Request::extract` packs into
`ExtractError::JsonError` and that line 179 of `main.rs` panics with. -/
def jsonErrorMsg : String := "invalid request parameters"

/-!
Embedding of `main_loop` (`main.rs` lines 149–192) over the finite
list of messages the connection's channel will deliver; the end of the
list models `recv` failing because the channel disconnected.

For each request, `Connection::handle_shutdown` is consulted first (its
body is embedded inline from the `lsp_server` crate): on a "shutdown"
request it sends `Response::new_ok(id, ())` (a `null` result), then
receives the next channel message, returning `Ok(true)` if it is an
"exit" notification — upon which `main_loop` returns `Ok(())` — and a
`ProtocolError` otherwise (also on timeout/disconnection), which the `?`
on line 166 propagates.  Otherwise `cast::<GotoDefinition>` runs: if the
method is `textDocument/definition` and the params decode, the loop sends
a response whose result is `Some(GotoDefinitionResponse::Array(vec![]))`
(serialized `[]`); if the params fail to decode it panics (line 179); if
the method mismatches, the request is dropped with no reply (line 180).
Responses and notifications are only logged.
-/

/-- The tail of the embedded `handle_shutdown`: after the ok reply to the
shutdown request is sent, it receives one more channel message and
decides how `main_loop` ends — `Ok(())` on the "exit" notification, a
propagated `ProtocolError` on any other message or on
timeout/disconnection. -/
def shutdownTail : List Message → Outcome
  | Message.notification n :: _ =>
    if n.method = "exit" then Outcome.ok
    else Outcome.protocolError "unexpected message during shutdown"
  | [] => Outcome.protocolError "waiting for exit notification"
  | _ :: _ => Outcome.protocolError "unexpected message during shutdown"

/-- Embedding of the body of `main_loop`; see `shutdownTail` above for the
shutdown path. -/
def mainLoop : List Message → RunResult
  | [] => ⟨[], Outcome.ok⟩
  | Message.request req :: rest =>
    if req.method = "shutdown" then
      ⟨[Message.response ⟨req.id, some Json.null, none⟩], shutdownTail rest⟩
    else if req.method = "textDocument/definition" then
      match decodeGotoDefinitionParams req.params with
      | some _ =>
        RunResult.prepend
          (Message.response ⟨req.id, some (Json.arr []), none⟩)
          (mainLoop rest)
      | none => ⟨[], Outcome.panicked jsonErrorMsg⟩
    else mainLoop rest
  | Message.response _ :: rest => mainLoop rest
  | Message.notification _ :: rest => mainLoop rest

/-- JSON-RPC error code `ErrorCode::ServerNotInitialized` used by
`lsp_server::Connection::initialize_start`. -/
def serverNotInitializedCode : Int := -32002

/-- The error response `initialize_start` sends for a request received
before the "initialize" request.  (The crate's message is
`format!("expected initialize request, got {req:?}")`; the Debug
rendering of the request is elided here and only the constant prefix
kept — the id and the -32002 code, which the claims depend on, are
exact.) -/
def notInitializedResponse (id : RequestId) : Message :=
  Message.response
    ⟨id, none, some ⟨serverNotInitializedCode, "expected initialize request"⟩⟩

/-- Embedding of `lsp_server::Connection::initialize_start` (called from
`main.rs` line 62 via `Connection::initialize`): receive messages until
the "initialize" request arrives, answering every other request with a
`ServerNotInitialized` error response carrying that request's id and
skipping non-"exit" notifications; an "exit" notification, a response, or
channel disconnection aborts with a `ProtocolError`.  Returns the emitted
messages and, on success, the initialize request's id and params and the
messages still unread. -/
def initializeStart :
    List Message → List Message × Except String (RequestId × Json × List Message)
  | [] => ([], Except.error "channel is disconnected")
  | Message.request r :: rest =>
    if r.method = "initialize" then ([], Except.ok (r.id, r.params, rest))
    else
      let out := initializeStart rest
      (notInitializedResponse r.id :: out.1, out.2)
  | Message.notification n :: rest =>
    if n.method = "exit" then
      ([], Except.error "expected initialize request, got exit notification")
    else initializeStart rest
  | Message.response _ :: _ =>
    ([], Except.error "expected initialize request, got response")

/-- The `InitializeResult`-shaped JSON `Connection::initialize` replies
with: an object holding the server capabilities. -/
def initializeResult (caps : Json) : Json :=
  Json.obj [("capabilities", caps)]

/-- Embedding of `lsp_server::Connection::initialize` (`main.rs` line 62):
`initialize_start`, then `initialize_finish` — send the ok response to
the initialize request carrying `{ "capabilities": caps }`, then require
the next channel message to be the "initialized" notification, failing
with a `ProtocolError` otherwise.  Returns the emitted messages and, on
success, the initialize params and the remaining messages. -/
def initializePhase (caps : Json) (msgs : List Message) :
    List Message × Except String (Json × List Message) :=
  match initializeStart msgs with
  | (em, Except.error e) => (em, Except.error e)
  | (em, Except.ok (id, params, rest)) =>
    let resp := Message.response ⟨id, some (initializeResult caps), none⟩
    match rest with
    | Message.notification n :: rest2 =>
      if n.method = "initialized" then (em ++ [resp], Except.ok (params, rest2))
      else (em ++ [resp], Except.error "expected initialized notification")
    | _ => (em ++ [resp], Except.error "expected initialized notification")

/-- Embedding of `main` after the capabilities are built: run
`Connection::initialize`, propagating its error (`main.rs` lines 62–70),
then `main_loop`, whose first line decodes the initialize params as
`InitializeParams` and propagates a decode failure (`main.rs` line 153).
All emitted messages are collected in order. -/
def runServer (caps : Json) (msgs : List Message) : RunResult :=
  match initializePhase caps msgs with
  | (em, Except.error e) => ⟨em, Outcome.protocolError e⟩
  | (em, Except.ok (params, rest)) =>
    match decodeInitializeParams params with
    | none => ⟨em, Outcome.protocolError "failed to decode InitializeParams"⟩
    | some _ =>
      let r := mainLoop rest
      ⟨em ++ r.emitted, r.outcome⟩

/-- Embedding of the `lsp_server` stdio reader thread: it forwards each
message read from stdin into the channel and stops right after forwarding
an "exit" notification, so the channel delivers the stream up to and
including the first "exit" notification and then disconnects. -/
def channelMessages : List Message → List Message
  | [] => []
  | Message.notification n :: rest =>
    if n.method = "exit" then [Message.notification n]
    else Message.notification n :: channelMessages rest
  | m :: rest => m :: channelMessages rest

/-- The whole process on a decoded stdin stream: the reader thread feeds
the channel, `main` runs the handshake and `main_loop` over it. -/
def runSystem (caps : Json) (stdinMsgs : List Message) : RunResult :=
  runServer caps (channelMessages stdinMsgs)

/-- How the operating-system process ends: with an exit status, or not at
all. -/
inductive ProcessEnd where
  | exited (status : Nat) : ProcessEnd
  | hangs : ProcessEnd
  deriving Repr, DecidableEq

/-- Model of `main`'s epilogue for each way `main_loop` ends (`main.rs`
lines 98–102).  On `Err`, the `?` on line 98 returns it and Rust's `main`
exits with status 1; a panic aborts the process with status 101.  On
`Ok(())`, `main` proceeds to `io_threads.join()` on line 99 — but the
writer thread spawned by `Connection::stdio` only finishes when every
sender into its channel has been dropped, and one sender lives inside the
`Connection` that `main` still holds through the `Arc` bound on line 47,
so the join blocks forever: the process hangs and never exits, with any
status.  (This maps `main_loop`'s outcomes; the separate initialize-
failure path on lines 62–70 returns its error directly — exit status 1 —
unless the channel disconnected, in which case it too reaches the
blocking join first.) -/
def processEnd : Outcome → ProcessEnd
  | Outcome.ok => ProcessEnd.hangs
  | Outcome.protocolError _ => ProcessEnd.exited 1
  | Outcome.panicked _ => ProcessEnd.exited 101

/-- Model of `lsp_types::OneOf`. -/
inductive OneOf (A B : Type) where
  | left (a : A) : OneOf A B
  | right (b : B) : OneOf A B
  deriving Repr, DecidableEq

/-- Model of `lsp_types::CodeActionProviderCapability`: either the simple
boolean form or a `CodeActionOptions` object (kept as raw JSON, the
program never builds one). -/
inductive CodeActionProviderCapability where
  | simple (b : Bool) : CodeActionProviderCapability
  | options (o : Json) : CodeActionProviderCapability
  deriving Repr

/-- Model of `lsp_types::ServerCapabilities`.  The two fields the program
sets keep their library types; every other capability field of the
library struct is optional and is kept as raw `Option Json` since the
program leaves them all at their `Default` (`None`).  `OneOf Bool Json`
stands for `OneOf<bool, DefinitionOptions>`. -/
structure ServerCapabilities where
  position_encoding : Option Json := none
  text_document_sync : Option Json := none
  selection_range_provider : Option Json := none
  hover_provider : Option Json := none
  completion_provider : Option Json := none
  signature_help_provider : Option Json := none
  definition_provider : Option (OneOf Bool Json) := none
  type_definition_provider : Option Json := none
  implementation_provider : Option Json := none
  references_provider : Option Json := none
  document_highlight_provider : Option Json := none
  document_symbol_provider : Option Json := none
  workspace_symbol_provider : Option Json := none
  code_action_provider : Option CodeActionProviderCapability := none
  code_lens_provider : Option Json := none
  document_formatting_provider : Option Json := none
  document_range_formatting_provider : Option Json := none
  document_on_type_formatting_provider : Option Json := none
  rename_provider : Option Json := none
  document_link_provider : Option Json := none
  color_provider : Option Json := none
  folding_range_provider : Option Json := none
  declaration_provider : Option Json := none
  execute_command_provider : Option Json := none
  workspace : Option Json := none
  call_hierarchy_provider : Option Json := none
  semantic_tokens_provider : Option Json := none
  moniker_provider : Option Json := none
  linked_editing_range_provider : Option Json := none
  inline_value_provider : Option Json := none
  inlay_hint_provider : Option Json := none
  diagnostic_provider : Option Json := none
  experimental : Option Json := none
  deriving Repr

/-- The capabilities value built in `main.rs` lines 51–55:
`definition_provider: Some(OneOf::Left(true))`,
`code_action_provider: Some(CodeActionProviderCapability::Simple(true))`,
and `..Default::default()` for everything else. -/
def serverCapabilities : ServerCapabilities :=
  { definition_provider := some (OneOf.left true)
    code_action_provider := some (CodeActionProviderCapability.simple true) }

/-- Serialization of one optional capability field: serde skips `None`
fields (`skip_serializing_if = "Option::is_none"` throughout
`lsp_types::ServerCapabilities`). -/
def capField (name : String) : Option Json → List (String × Json)
  | none => []
  | some j => [(name, j)]

/-- Serialization of `OneOf<bool, T>`: untagged, so `Left(b)` is the bare
boolean. -/
def serializeOneOf : OneOf Bool Json → Json
  | OneOf.left b => Json.bool b
  | OneOf.right j => j

/-- Serialization of `CodeActionProviderCapability`: untagged, so
`Simple(b)` is the bare boolean. -/
def serializeCodeActionProvider : CodeActionProviderCapability → Json
  | CodeActionProviderCapability.simple b => Json.bool b
  | CodeActionProviderCapability.options o => o

/-- Model of `serde_json::to_value::<ServerCapabilities>` (`main.rs` line
51): each field serializes under its camelCase wire name, `None` fields
are skipped, fields appear in the struct's declaration order. -/
def serializeServerCapabilities (c : ServerCapabilities) : Json :=
  Json.obj
    (capField "positionEncoding" c.position_encoding ++
     capField "textDocumentSync" c.text_document_sync ++
     capField "selectionRangeProvider" c.selection_range_provider ++
     capField "hoverProvider" c.hover_provider ++
     capField "completionProvider" c.completion_provider ++
     capField "signatureHelpProvider" c.signature_help_provider ++
     capField "definitionProvider" (c.definition_provider.map serializeOneOf) ++
     capField "typeDefinitionProvider" c.type_definition_provider ++
     capField "implementationProvider" c.implementation_provider ++
     capField "referencesProvider" c.references_provider ++
     capField "documentHighlightProvider" c.document_highlight_provider ++
     capField "documentSymbolProvider" c.document_symbol_provider ++
     capField "workspaceSymbolProvider" c.workspace_symbol_provider ++
     capField "codeActionProvider"
       (c.code_action_provider.map serializeCodeActionProvider) ++
     capField "codeLensProvider" c.code_lens_provider ++
     capField "documentFormattingProvider" c.document_formatting_provider ++
     capField "documentRangeFormattingProvider"
       c.document_range_formatting_provider ++
     capField "documentOnTypeFormattingProvider"
       c.document_on_type_formatting_provider ++
     capField "renameProvider" c.rename_provider ++
     capField "documentLinkProvider" c.document_link_provider ++
     capField "colorProvider" c.color_provider ++
     capField "foldingRangeProvider" c.folding_range_provider ++
     capField "declarationProvider" c.declaration_provider ++
     capField "executeCommandProvider" c.execute_command_provider ++
     capField "workspace" c.workspace ++
     capField "callHierarchyProvider" c.call_hierarchy_provider ++
     capField "semanticTokensProvider" c.semantic_tokens_provider ++
     capField "monikerProvider" c.moniker_provider ++
     capField "linkedEditingRangeProvider" c.linked_editing_range_provider ++
     capField "inlineValueProvider" c.inline_value_provider ++
     capField "inlayHintProvider" c.inlay_hint_provider ++
     capField "diagnosticProvider" c.diagnostic_provider ++
     capField "experimental" c.experimental)

/-- The JSON capabilities payload the program hands to
`Connection::initialize`. -/
def serverCapabilitiesJson : Json :=
  serializeServerCapabilities serverCapabilities

/-- Is `m` a response carrying id `i`? -/
def isResponseWithId (i : RequestId) : Message → Bool
  | Message.response r => decide (r.id = i)
  | _ => false

/-- Is `m` a request carrying id `i`? -/
def isRequestWithId (i : RequestId) : Message → Bool
  | Message.request r => decide (r.id = i)
  | _ => false

/-- Is `m` a request at all? -/
def Message.isRequest : Message → Bool
  | Message.request _ => true
  | _ => false

/-- `main_loop` consumes this whole channel content and then breaks on
`recv` failing: it reaches neither a "shutdown" request (which returns
from `main_loop`) nor a `textDocument/definition` request with
undecodable params (which panics). -/
def processesAll : List Message → Bool
  | [] => true
  | Message.request r :: rest =>
    if r.method = "shutdown" then false
    else if r.method = "textDocument/definition" then
      (decodeGotoDefinitionParams r.params).isSome && processesAll rest
    else processesAll rest
  | Message.response _ :: rest => processesAll rest
  | Message.notification _ :: rest => processesAll rest

/-- Characters kept by the conservative uri check: unreserved path
characters that no URL parser rejects or reinterprets. -/
def uriCharOk (c : Char) : Bool :=
  c.isAlphanum || c == '/' || c == '.' || c == '_' || c == '-'

/-- Does the second character list start with the first? -/
def charsLeadWith : List Char → List Char → Bool
  | [], _ => true
  | _ :: _, [] => false
  | p :: ps, c :: cs => p == c && charsLeadWith ps cs

/-- Conservative sufficient condition for the uri parser that runs inside
the crate's `textDocument.uri` deserialization to accept a string: a
`file:///` URL whose remainder consists only of unreserved path
characters.  Every string accepted here really parses; strings rejected
here may or may not. -/
def uriAccepted (s : String) : Bool :=
  charsLeadWith "file:///".data s.data && (s.data.drop 8).all uriCharOk

/-- The params are exactly
`{"textDocument": {"uri": <string>}, "position": {"line": <num>,
"character": <num>}}` with no extra members, so no present-but-ill-typed
optional member (e.g. a flattened `workDoneToken`) can make the real
serde decode fail. -/
def exactGotoShape : Json → Bool
  | Json.obj [("textDocument", Json.obj [("uri", Json.str _)]),
              ("position", Json.obj [("line", Json.num _),
                                     ("character", Json.num _)])] => true
  | _ => false

/-- Conservative sufficient condition for the real serde decode of
`GotoDefinitionParams` to succeed: exactly the required shape, the model
decode succeeds (which checks the u32 bounds), and the uri passes the
conservative `file:///` check.  On this region the wide
`decodeGotoDefinitionParams` model and the real decode agree. -/
def gotoParamsAccepted (p : Json) : Bool :=
  exactGotoShape p &&
    (match decodeGotoDefinitionParams p with
     | some g => uriAccepted g.uri
     | none => false)

/-- Conservative sufficient condition for the real serde decode of
`InitializeParams` to succeed: exactly `{"capabilities": {}}` — the one
required member present and no optional member that could be ill-typed
(e.g. a non-numeric `processId`).  On this region the wide
`decodeInitializeParams` model and the real decode agree. -/
def initializeParamsAccepted : Json → Bool
  | Json.obj [("capabilities", Json.obj [])] => true
  | _ => false

/-- The wide decode model tells the truth about every
`textDocument/definition` request in the list: each such request's params
either fail the model decode (then the real serde decode, which checks
strictly more, also fails and the program panics exactly as the model
does) or pass the conservative acceptance check (then the real decode
also succeeds and the program replies exactly as the model does).  On
lists satisfying this, the embedded `main_loop` and the real program
agree end to end. -/
def decodeFaithful : List Message → Bool
  | [] => true
  | Message.request r :: rest =>
    (if r.method = "textDocument/definition" then
      ((decodeGotoDefinitionParams r.params).isNone || gotoParamsAccepted r.params)
     else true) && decodeFaithful rest
  | Message.response _ :: rest => decodeFaithful rest
  | Message.notification _ :: rest => decodeFaithful rest

/-- Well-formed `GotoDefinitionParams` JSON used by concrete runs. -/
def goodDefinitionParams : Json :=
  Json.obj
    [("textDocument", Json.obj [("uri", Json.str "file:///main.rs")]),
     ("position", Json.obj [("line", Json.num 1), ("character", Json.num 2)])]

/-- A concrete "initialize" request. -/
def initializeMsg : Message :=
  Message.request
    ⟨RequestId.num 0, "initialize", Json.obj [("capabilities", Json.obj [])]⟩

/-- A concrete "initialized" notification. -/
def initializedMsg : Message := Message.notification ⟨"initialized", Json.null⟩

/-- A concrete "exit" notification. -/
def exitMsg : Message := Message.notification ⟨"exit", Json.null⟩

/-- Every message `main_loop` emits is a response whose id is the id of
some request in the channel content. -/
theorem mainLoop_emitted_sound :
    ∀ msgs : List Message, ∀ m ∈ (mainLoop msgs).emitted,
      ∃ r : Request, Message.request r ∈ msgs ∧
        ∃ res err, m = Message.response ⟨r.id, res, err⟩ := by
  intro msgs
  induction msgs with
  | nil => intro m hm; simp [mainLoop] at hm
  | cons hd rest ih =>
    intro m hm
    cases hd with
    | request r =>
      by_cases hs : r.method = "shutdown"
      · simp [mainLoop, hs] at hm
        exact ⟨r, by simp, some Json.null, none, by simp [hm]⟩
      · by_cases hg : r.method = "textDocument/definition"
        · cases hdec : decodeGotoDefinitionParams r.params with
          | some g =>
            simp [mainLoop, hs, hg, hdec, RunResult.prepend] at hm
            rcases hm with hm | hm
            · exact ⟨r, by simp, some (Json.arr []), none, by simp [hm]⟩
            · obtain ⟨r', hr', h⟩ := ih m hm
              exact ⟨r', by simp [hr'], h⟩
          | none => simp [mainLoop, hs, hg, hdec] at hm
        · simp [mainLoop, hs, hg] at hm
          obtain ⟨r', hr', h⟩ := ih m hm
          exact ⟨r', by simp [hr'], h⟩
    | response r =>
      simp [mainLoop] at hm
      obtain ⟨r', hr', h⟩ := ih m hm
      exact ⟨r', by simp [hr'], h⟩
    | notification n =>
      simp [mainLoop] at hm
      obtain ⟨r', hr', h⟩ := ih m hm
      exact ⟨r', by simp [hr'], h⟩

/-- `main_loop` emits at most as many responses with id `i` as there are
requests with id `i` in the channel content. -/
theorem mainLoop_count_le (i : RequestId) :
    ∀ msgs : List Message,
      (mainLoop msgs).emitted.countP (isResponseWithId i)
        ≤ msgs.countP (isRequestWithId i) := by
  intro msgs
  induction msgs with
  | nil => simp [mainLoop]
  | cons hd rest ih =>
    cases hd with
    | request r =>
      by_cases hs : r.method = "shutdown"
      · by_cases hid : r.id = i <;>
          simp [mainLoop, hs, isResponseWithId, isRequestWithId, hid,
            List.countP_cons]
      · by_cases hg : r.method = "textDocument/definition"
        · cases hdec : decodeGotoDefinitionParams r.params with
          | some g =>
            by_cases hid : r.id = i <;>
              simp [mainLoop, hs, hg, hdec, RunResult.prepend,
                isResponseWithId, isRequestWithId, hid, List.countP_cons] <;>
              omega
          | none =>
            simp [mainLoop, hs, hg, hdec, List.countP_cons]
        · simp only [mainLoop, if_neg hs, if_neg hg]
          refine le_trans ih ?_
          simp [List.countP_cons]
    | response r =>
      refine le_trans (by simpa [mainLoop] using ih) ?_
      simp [List.countP_cons]
    | notification n =>
      refine le_trans (by simpa [mainLoop] using ih) ?_
      simp [List.countP_cons]

/-- Every message `initialize_start` emits is the `ServerNotInitialized`
error response to some request in the channel content. -/
theorem initializeStart_emitted_sound :
    ∀ msgs : List Message, ∀ m ∈ (initializeStart msgs).1,
      ∃ r : Request, Message.request r ∈ msgs ∧ r.method ≠ "initialize" ∧
        m = notInitializedResponse r.id := by
  intro msgs
  induction msgs with
  | nil => intro m hm; simp [initializeStart] at hm
  | cons hd rest ih =>
    intro m hm
    cases hd with
    | request r =>
      by_cases hi : r.method = "initialize"
      · simp [initializeStart, hi] at hm
      · simp [initializeStart, hi] at hm
        rcases hm with hm | hm
        · exact ⟨r, by simp, hi, hm⟩
        · obtain ⟨r', hr', hne, h⟩ := ih m hm
          exact ⟨r', by simp [hr'], hne, h⟩
    | response r => simp [initializeStart] at hm
    | notification n =>
      by_cases he : n.method = "exit"
      · simp [initializeStart, he] at hm
      · simp [initializeStart, he] at hm
        obtain ⟨r', hr', hne, h⟩ := ih m hm
        exact ⟨r', by simp [hr'], hne, h⟩

/-- When `initialize_start` succeeds, it found the "initialize" request
in the channel content and hands back a suffix of it as unread. -/
theorem initializeStart_ok_sound :
    ∀ msgs : List Message, ∀ i p rest,
      (initializeStart msgs).2 = Except.ok (i, p, rest) →
        (∃ r : Request, Message.request r ∈ msgs ∧ r.id = i ∧
          r.method = "initialize" ∧ r.params = p) ∧ rest <:+ msgs := by
  intro msgs
  induction msgs with
  | nil => intro i p rest h; simp [initializeStart] at h
  | cons hd tail ih =>
    intro i p rest h
    cases hd with
    | request r =>
      by_cases hi : r.method = "initialize"
      · simp [initializeStart, hi] at h
        obtain ⟨h1, h2, h3⟩ := h
        refine ⟨⟨r, by simp, h1, hi, h2⟩, ?_⟩
        rw [← h3]
        exact List.suffix_cons _ _
      · simp [initializeStart, hi] at h
        obtain ⟨⟨r', hr', h1, h2, h3⟩, hsuf⟩ := ih i p rest h
        exact ⟨⟨r', by simp [hr'], h1, h2, h3⟩, hsuf.trans (List.suffix_cons _ _)⟩
    | response r => simp [initializeStart] at h
    | notification n =>
      by_cases he : n.method = "exit"
      · simp [initializeStart, he] at h
      · simp [initializeStart, he] at h
        obtain ⟨⟨r', hr', h1, h2, h3⟩, hsuf⟩ := ih i p rest h
        exact ⟨⟨r', by simp [hr'], h1, h2, h3⟩, hsuf.trans (List.suffix_cons _ _)⟩

/-- Every message the initialize phase emits is a response whose id is
the id of some request in the channel content. -/
theorem initializePhase_emitted_sound (caps : Json) (msgs : List Message) :
    ∀ m ∈ (initializePhase caps msgs).1,
      ∃ r : Request, Message.request r ∈ msgs ∧
        ∃ res err, m = Message.response ⟨r.id, res, err⟩ := by
  intro m hm
  rcases hstart : initializeStart msgs with ⟨em, exc⟩
  cases exc with
  | error e =>
    rw [initializePhase, hstart] at hm
    simp at hm
    obtain ⟨r, hr, _, hmm⟩ := initializeStart_emitted_sound msgs m
      (by rw [hstart]; exact hm)
    exact ⟨r, hr, none, some ⟨serverNotInitializedCode,
      "expected initialize request"⟩, by simpa [notInitializedResponse] using hmm⟩
  | ok v =>
    obtain ⟨i, p, rest⟩ := v
    have hok := initializeStart_ok_sound msgs i p rest (by rw [hstart])
    obtain ⟨⟨r0, hr0, hid0, _, _⟩, _⟩ := hok
    rw [initializePhase, hstart] at hm
    have hmem : m ∈ em ++
        [Message.response ⟨i, some (initializeResult caps), none⟩] := by
      rcases rest with _ | ⟨m2, rest2⟩
      · simpa using hm
      · cases m2 with
        | request r2 => simpa using hm
        | response r2 => simpa using hm
        | notification n2 =>
          by_cases hn2 : n2.method = "initialized"
          · simpa [hn2] using hm
          · simpa [hn2] using hm
    rw [List.mem_append] at hmem
    rcases hmem with hmem | hmem
    · obtain ⟨r, hr, _, hmm⟩ := initializeStart_emitted_sound msgs m
        (by rw [hstart]; exact hmem)
      exact ⟨r, hr, none, some ⟨serverNotInitializedCode,
        "expected initialize request"⟩, by simpa [notInitializedResponse] using hmm⟩
    · simp at hmem
      exact ⟨r0, hr0, some (initializeResult caps), none, by simp [hmem, hid0]⟩

/-- When the initialize phase succeeds, the unread remainder is a suffix
of the channel content. -/
theorem initializePhase_ok_sound (caps : Json) (msgs : List Message)
    (p : Json) (rest : List Message) :
    (initializePhase caps msgs).2 = Except.ok (p, rest) → rest <:+ msgs := by
  intro h
  rcases hstart : initializeStart msgs with ⟨em, exc⟩
  cases exc with
  | error e => rw [initializePhase, hstart] at h; simp at h
  | ok v =>
    obtain ⟨i, p0, rest0⟩ := v
    have hok := initializeStart_ok_sound msgs i p0 rest0 (by rw [hstart])
    rw [initializePhase, hstart] at h
    rcases rest0 with _ | ⟨m2, rest2⟩
    · simp at h
    · cases m2 with
      | request r2 => simp at h
      | response r2 => simp at h
      | notification n2 =>
        by_cases hn2 : n2.method = "initialized"
        · simp [hn2] at h
          have : rest2 <:+ Message.notification n2 :: rest2 :=
            List.suffix_cons _ _
          rw [← h.2]
          exact this.trans hok.2
        · simp [hn2] at h

/-- Every message the whole server run emits is a response whose id is
the id of some request in the channel content. -/
theorem runServer_emitted_sound (caps : Json) (msgs : List Message) :
    ∀ m ∈ (runServer caps msgs).emitted,
      ∃ r : Request, Message.request r ∈ msgs ∧
        ∃ res err, m = Message.response ⟨r.id, res, err⟩ := by
  intro m hm
  rcases hphase : initializePhase caps msgs with ⟨em, exc⟩
  cases exc with
  | error e =>
    rw [runServer, hphase] at hm
    simp at hm
    exact initializePhase_emitted_sound caps msgs m (by rw [hphase]; exact hm)
  | ok v =>
    obtain ⟨p, rest⟩ := v
    have hsuf : rest <:+ msgs :=
      initializePhase_ok_sound caps msgs p rest (by rw [hphase])
    rw [runServer, hphase] at hm
    cases hdec : decodeInitializeParams p with
    | none =>
      simp [hdec] at hm
      exact initializePhase_emitted_sound caps msgs m (by rw [hphase]; exact hm)
    | some c =>
      simp [hdec] at hm
      rcases hm with hm | hm
      · exact initializePhase_emitted_sound caps msgs m (by rw [hphase]; exact hm)
      · obtain ⟨r, hr, h⟩ := mainLoop_emitted_sound rest m hm
        exact ⟨r, hsuf.subset hr, h⟩

/-- If `main_loop` consumes all of `msgs₁`, then on `msgs₁ ++ msgs₂` it
fully handles `msgs₁` first — emitting exactly the responses of `msgs₁`,
in order, before any response to `msgs₂` — and then continues with
`msgs₂` alone. -/
theorem mainLoop_append (msgs₁ msgs₂ : List Message)
    (h : processesAll msgs₁ = true) :
    mainLoop (msgs₁ ++ msgs₂) =
      ⟨(mainLoop msgs₁).emitted ++ (mainLoop msgs₂).emitted,
        (mainLoop msgs₂).outcome⟩ := by
  induction msgs₁ with
  | nil => simp [mainLoop]
  | cons hd rest ih =>
    cases hd with
    | request r =>
      by_cases hs : r.method = "shutdown"
      · simp [processesAll, hs] at h
      · by_cases hg : r.method = "textDocument/definition"
        · cases hdec : decodeGotoDefinitionParams r.params with
          | some g =>
            have h' : processesAll rest = true := by
              simpa [processesAll, hs, hg, hdec] using h
            simp [mainLoop, hs, hg, hdec, RunResult.prepend, ih h']
          | none => simp [processesAll, hs, hg, hdec] at h
        · have h' : processesAll rest = true := by
            simpa [processesAll, hs, hg] using h
          simp [mainLoop, hs, hg, ih h']
    | response r =>
      have h' : processesAll rest = true := by simpa [processesAll] using h
      simp [mainLoop, ih h']
    | notification n =>
      have h' : processesAll rest = true := by simpa [processesAll] using h
      simp [mainLoop, ih h']

/-- A channel content that `main_loop` consumes entirely ends with the
loop breaking on the disconnected channel and returning `Ok(())`. -/
theorem mainLoop_processesAll_ok (msgs : List Message)
    (h : processesAll msgs = true) :
    (mainLoop msgs).outcome = Outcome.ok := by
  have := mainLoop_append msgs [] h
  simpa [mainLoop] using congrArg RunResult.outcome this

/-- On the conservative acceptance region the model decode succeeds (and
the uri check holds), so both the model and the real program answer the
request. -/
theorem gotoParamsAccepted_sound (p : Json)
    (h : gotoParamsAccepted p = true) :
    ∃ g, decodeGotoDefinitionParams p = some g ∧ uriAccepted g.uri = true := by
  unfold gotoParamsAccepted at h
  rw [Bool.and_eq_true] at h
  obtain ⟨-, h2⟩ := h
  cases hdec : decodeGotoDefinitionParams p with
  | none => rw [hdec] at h2; simp at h2
  | some g => rw [hdec] at h2; exact ⟨g, rfl, h2⟩

/-- The conservative initialize-params region is the single JSON value
`{"capabilities": {}}`, which both the model and the real serde decode
accept. -/
theorem initializeParamsAccepted_sound (ip : Json)
    (h : initializeParamsAccepted ip = true) :
    ip = Json.obj [("capabilities", Json.obj [])] := by
  unfold initializeParamsAccepted at h
  split at h
  · rfl
  · simp at h

/-- C1 (counterexample): a valid request — method `textDocument/hover`,
id 1 — is received by the server loop, yet the loop emits no Response at
all, let alone exactly one carrying its id: `cast::<GotoDefinition>`
reports a method mismatch and the request is dropped (`main.rs` line
180). -/
theorem C1_counterexample :
    mainLoop
        [Message.request ⟨RequestId.num 1, "textDocument/hover", Json.null⟩]
      = ⟨[], Outcome.ok⟩ := rfl

/-- C1 (amended): every Response the server loop emits carries the id of
some Request in its input, and for each id the loop emits at most as many
Responses with that id as there are Requests with that id (so a request
with a unique id receives at most one Response) — but not every request
receives a response. -/
theorem C1_response_correlation (msgs : List Message) (i : RequestId) :
    (∀ m ∈ (mainLoop msgs).emitted,
      ∃ r : Request, Message.request r ∈ msgs ∧
        ∃ res err, m = Message.response ⟨r.id, res, err⟩) ∧
    (mainLoop msgs).emitted.countP (isResponseWithId i)
      ≤ msgs.countP (isRequestWithId i) :=
  ⟨mainLoop_emitted_sound msgs, mainLoop_count_le i msgs⟩

/-- C1 witness: the correlation bound evaluated on a concrete
goto-definition request with id 2. -/
theorem C1_witness :
    (mainLoop [Message.request
        ⟨RequestId.num 2, "textDocument/definition", goodDefinitionParams⟩]).emitted.countP
        (isResponseWithId (RequestId.num 2))
      ≤ [Message.request
          ⟨RequestId.num 2, "textDocument/definition", goodDefinitionParams⟩].countP
          (isRequestWithId (RequestId.num 2)) :=
  (C1_response_correlation
    [Message.request
      ⟨RequestId.num 2, "textDocument/definition", goodDefinitionParams⟩]
    (RequestId.num 2)).2

/-- C3 (counterexample): a request for the known method
`textDocument/definition` whose params (`"oops"`) fail to decode does not
get an InvalidParams error response; the server panics with no reply
(`main.rs` line 179). -/
theorem C3_counterexample :
    mainLoop [Message.request
        ⟨RequestId.num 4, "textDocument/definition", Json.str "oops"⟩]
      = ⟨[], Outcome.panicked jsonErrorMsg⟩ := rfl

/-- C3 (amended): a request for the registered method
`textDocument/definition` whose params fail to decode makes the server
panic: no response of any kind is emitted and the loop terminates
abnormally. -/
theorem C3_bad_params_panics (r : Request) (rest : List Message)
    (hm : r.method = "textDocument/definition")
    (hd : decodeGotoDefinitionParams r.params = none) :
    mainLoop (Message.request r :: rest)
      = ⟨[], Outcome.panicked jsonErrorMsg⟩ := by
  simp [mainLoop, hm, hd]

/-- C3 witness: the panic on a concrete undecodable-params request. -/
theorem C3_witness :
    mainLoop [Message.request
        ⟨RequestId.num 4, "textDocument/definition", Json.bool true⟩]
      = ⟨[], Outcome.panicked jsonErrorMsg⟩ :=
  C3_bad_params_panics
    ⟨RequestId.num 4, "textDocument/definition", Json.bool true⟩ [] rfl rfl

/-- C4 (counterexample): a request for the unregistered method
`workspace/symbol` receives no MethodNotFound error response — the loop
emits nothing for it and just continues. -/
theorem C4_counterexample :
    mainLoop [Message.request ⟨RequestId.num 7, "workspace/symbol", Json.null⟩]
      = ⟨[], Outcome.ok⟩ := rfl

/-- C4 (amended): a request whose method has no handler (neither
"shutdown" nor `textDocument/definition`) is dropped without any
response, and the loop continues with the remaining messages exactly as
if the request had not arrived. -/
theorem C4_unknown_method_dropped (r : Request) (rest : List Message)
    (h1 : r.method ≠ "shutdown")
    (h2 : r.method ≠ "textDocument/definition") :
    mainLoop (Message.request r :: rest) = mainLoop rest := by
  simp [mainLoop, h1, h2]

/-- C4 witness: a concrete unknown-method request is dropped. -/
theorem C4_witness :
    mainLoop [Message.request ⟨RequestId.num 8, "textDocument/references",
        Json.null⟩]
      = mainLoop [] :=
  C4_unknown_method_dropped
    ⟨RequestId.num 8, "textDocument/references", Json.null⟩ []
    (by decide) (by decide)

/-- C6: while the connection is uninitialized (inside
`initialize_start`), any request whose method is not "initialize" is
answered with an error response carrying that request's id and the
server-not-initialized code (-32002), and the handshake state is
unchanged: the phase continues on the remaining messages exactly as
before the request arrived. -/
theorem C6_uninitialized_request_rejected (r : Request) (rest : List Message)
    (h : r.method ≠ "initialize") :
    initializeStart (Message.request r :: rest)
        = (notInitializedResponse r.id :: (initializeStart rest).1,
           (initializeStart rest).2) ∧
    notInitializedResponse r.id
        = Message.response
            ⟨r.id, none, some ⟨-32002, "expected initialize request"⟩⟩ := by
  refine ⟨?_, rfl⟩
  simp [initializeStart, h]

/-- C6 witness: a concrete hover request sent before initialization gets
the -32002 error response. -/
theorem C6_witness :
    initializeStart
        [Message.request ⟨RequestId.num 5, "textDocument/hover", Json.null⟩]
      = ([notInitializedResponse (RequestId.num 5)],
         (initializeStart ([] : List Message)).2) := by
  have h := C6_uninitialized_request_rejected
    ⟨RequestId.num 5, "textDocument/hover", Json.null⟩ [] (by decide)
  simpa using h.1

/-- C7: no Response is ever emitted in reaction to a Notification: every
message any server run emits is a response carrying the id of some
request of the input (notifications carry no id at all), and receiving a
notification at the top of the server loop emits nothing and changes
nothing. -/
theorem C7_notifications_never_answered (caps : Json) (msgs : List Message) :
    (∀ m ∈ (runServer caps msgs).emitted,
      ∃ r : Request, Message.request r ∈ msgs ∧
        ∃ res err, m = Message.response ⟨r.id, res, err⟩) ∧
    (∀ (n : Notification) (rest : List Message),
      mainLoop (Message.notification n :: rest) = mainLoop rest) :=
  ⟨runServer_emitted_sound caps msgs, fun _ _ => by simp [mainLoop]⟩

/-- C7 witness: a concrete `textDocument/didOpen` notification is
consumed by the loop with no reply. -/
theorem C7_witness :
    mainLoop [Message.notification ⟨"textDocument/didOpen", Json.null⟩]
      = mainLoop [] :=
  (C7_notifications_never_answered Json.null []).2
    ⟨"textDocument/didOpen", Json.null⟩ []

/-- C9 (counterexample): with the channel disconnected at once (empty
channel content), `main_loop` does break and return `Ok(())` — but the
process does not end with success status: `main` then blocks forever in
`io_threads.join()` (`main.rs` line 99), because the writer thread's
channel sender lives in the `Connection` that `main` still holds through
the `Arc` of line 47, so the process never exits at all. -/
theorem C9_counterexample :
    (mainLoop []).outcome = Outcome.ok ∧
    processEnd (mainLoop []).outcome = ProcessEnd.hangs := ⟨rfl, rfl⟩

/-- C9 (amended): whenever `recv` fails because the channel
disconnected, the loop breaks and `main_loop` returns `Ok(())` — on an
empty channel content immediately, and on any channel content it
consumes entirely (no shutdown handshake required, restricted to the
region where the decode model is exact) — but the process then hangs
forever in `io_threads.join()` instead of ending with success status. -/
theorem C9_disconnect_breaks_ok (msgs : List Message)
    (h1 : processesAll msgs = true) (h2 : decodeFaithful msgs = true) :
    mainLoop [] = ⟨[], Outcome.ok⟩ ∧
    (mainLoop msgs).outcome = Outcome.ok ∧
    processEnd (mainLoop msgs).outcome = ProcessEnd.hangs := by
  have ho := mainLoop_processesAll_ok msgs h1
  exact ⟨rfl, ho, by rw [ho]; rfl⟩

/-- C9 witness: a bare "exit" notification followed by disconnection
still ends the loop with `Ok`, after which the process hangs. -/
theorem C9_witness :
    mainLoop [] = ⟨[], Outcome.ok⟩ ∧
    (mainLoop [exitMsg]).outcome = Outcome.ok ∧
    processEnd (mainLoop [exitMsg]).outcome = ProcessEnd.hangs :=
  C9_disconnect_breaks_ok [exitMsg] rfl rfl

/-- C10: the server loop is strictly sequential: if it consumes all of
`msgs₁`, then on `msgs₁ ++ msgs₂` every message of `msgs₁` is fully
handled — its responses emitted — before any message of `msgs₂` is
received, so responses appear in the arrival order of their requests.
The two `decodeFaithful` hypotheses restrict the statement to the region
where the wide decode model agrees with the real serde decode, so the
equation describes the program's runs and not only the model's. -/
theorem C10_sequential_processing (msgs₁ msgs₂ : List Message)
    (h : processesAll msgs₁ = true)
    (hf1 : decodeFaithful msgs₁ = true)
    (hf2 : decodeFaithful msgs₂ = true) :
    mainLoop (msgs₁ ++ msgs₂)
      = ⟨(mainLoop msgs₁).emitted ++ (mainLoop msgs₂).emitted,
         (mainLoop msgs₂).outcome⟩ :=
  mainLoop_append msgs₁ msgs₂ h

/-- C10 witness: two concrete goto-definition requests are answered in
arrival order. -/
theorem C10_witness :
    mainLoop
        ([Message.request
            ⟨RequestId.num 2, "textDocument/definition", goodDefinitionParams⟩] ++
         [Message.request
            ⟨RequestId.num 5, "textDocument/definition", goodDefinitionParams⟩])
      = ⟨(mainLoop [Message.request
            ⟨RequestId.num 2, "textDocument/definition",
              goodDefinitionParams⟩]).emitted ++
         (mainLoop [Message.request
            ⟨RequestId.num 5, "textDocument/definition",
              goodDefinitionParams⟩]).emitted,
         (mainLoop [Message.request
            ⟨RequestId.num 5, "textDocument/definition",
              goodDefinitionParams⟩]).outcome⟩ :=
  C10_sequential_processing
    [Message.request
      ⟨RequestId.num 2, "textDocument/definition", goodDefinitionParams⟩]
    [Message.request
      ⟨RequestId.num 5, "textDocument/definition", goodDefinitionParams⟩]
    rfl rfl rfl

/-- C2 (counterexample): after a successful initialize/initialized
handshake, a `textDocument/definition` request whose params (`null`) do
not decode is not answered with an empty-array success response — the
server panics with no reply to it. -/
theorem C2_counterexample :
    runServer serverCapabilitiesJson
        [initializeMsg, initializedMsg,
         Message.request ⟨RequestId.num 3, "textDocument/definition", Json.null⟩]
      = ⟨[Message.response
            ⟨RequestId.num 0, some (initializeResult serverCapabilitiesJson),
              none⟩],
         Outcome.panicked jsonErrorMsg⟩ := rfl

/-- C2 (amended): after the initialize request and initialized
notification are processed, every `textDocument/definition` request whose
params really decode as `GotoDefinitionParams` — the conservative
acceptance region, where the model decode and the real serde decode with
its uri parsing agree — is answered with a success response, carrying the
request's id, whose result is the empty array of locations; the loop
then continues with the remaining messages.  The initialize params and
the remaining messages are likewise restricted to the regions where the
model is exact, so the equation describes the program's run. -/
theorem C2_definition_after_handshake
    (iid : RequestId) (ip np : Json) (r : Request) (rest : List Message)
    (hip : initializeParamsAccepted ip = true)
    (hm : r.method = "textDocument/definition")
    (hacc : gotoParamsAccepted r.params = true)
    (hrest : decodeFaithful rest = true) :
    runServer serverCapabilitiesJson
        (Message.request ⟨iid, "initialize", ip⟩ ::
         Message.notification ⟨"initialized", np⟩ ::
         Message.request r :: rest)
      = ⟨Message.response
            ⟨iid, some (initializeResult serverCapabilitiesJson), none⟩ ::
         Message.response ⟨r.id, some (Json.arr []), none⟩ ::
         (mainLoop rest).emitted,
         (mainLoop rest).outcome⟩ := by
  obtain ⟨g, hd, -⟩ := gotoParamsAccepted_sound r.params hacc
  have hip2 := initializeParamsAccepted_sound ip hip
  subst hip2
  simp [runServer, initializePhase, initializeStart, decodeInitializeParams,
    jlookup, mainLoop, hm, hd, RunResult.prepend]

/-- C2 witness: the concrete handshake followed by a well-formed
goto-definition request with id 2 yields the initialize response and the
empty-array success response. -/
theorem C2_witness :
    runServer serverCapabilitiesJson
        [initializeMsg, initializedMsg,
         Message.request
           ⟨RequestId.num 2, "textDocument/definition", goodDefinitionParams⟩]
      = ⟨[Message.response
            ⟨RequestId.num 0, some (initializeResult serverCapabilitiesJson),
              none⟩,
          Message.response ⟨RequestId.num 2, some (Json.arr []), none⟩],
         Outcome.ok⟩ := by
  have h := C2_definition_after_handshake (RequestId.num 0)
    (Json.obj [("capabilities", Json.obj [])]) Json.null
    ⟨RequestId.num 2, "textDocument/definition", goodDefinitionParams⟩ []
    rfl rfl rfl rfl
  simpa [initializeMsg, initializedMsg, mainLoop] using h

/-- C5 (counterexample): a shutdown request followed by an exit
notification does make the server loop terminate (with `Ok(())`, the ok
shutdown response having been sent) — but the process does not then exit
with success status 0: `main` blocks forever in `io_threads.join()`
(`main.rs` line 99), since the writer thread's channel sender lives in
the `Connection` that `main` still holds through the `Arc` of line 47,
so the process never exits at all. -/
theorem C5_counterexample :
    mainLoop [Message.request ⟨RequestId.num 11, "shutdown", Json.null⟩,
        Message.notification ⟨"exit", Json.bool true⟩]
        = ⟨[Message.response ⟨RequestId.num 11, some Json.null, none⟩],
           Outcome.ok⟩ ∧
    processEnd Outcome.ok = ProcessEnd.hangs := ⟨rfl, rfl⟩

/-- C5 (amended): after a shutdown request followed by an exit
notification the server loop terminates with `Ok(())` (the ok shutdown
response having been sent); an exit notification without a prior
shutdown does not itself end the loop — the stdio reader stops after
forwarding it, the channel disconnects, and the loop also returns
`Ok(())`.  In both cases `main` then blocks forever in
`io_threads.join()`, so the process never exits — neither with status 0
nor with a non-zero status. -/
theorem C5_shutdown_exit_and_bare_exit
    (r : Request) (p p2 : Json) (rest more : List Message)
    (hs : r.method = "shutdown") :
    mainLoop (Message.request r :: Message.notification ⟨"exit", p⟩ :: rest)
        = ⟨[Message.response ⟨r.id, some Json.null, none⟩], Outcome.ok⟩ ∧
    processEnd (mainLoop (Message.request r ::
        Message.notification ⟨"exit", p⟩ :: rest)).outcome
        = ProcessEnd.hangs ∧
    mainLoop (channelMessages (Message.notification ⟨"exit", p2⟩ :: more))
        = ⟨[], Outcome.ok⟩ ∧
    processEnd (mainLoop (channelMessages
        (Message.notification ⟨"exit", p2⟩ :: more))).outcome
        = ProcessEnd.hangs := by
  have h1 : mainLoop (Message.request r ::
      Message.notification ⟨"exit", p⟩ :: rest)
      = ⟨[Message.response ⟨r.id, some Json.null, none⟩], Outcome.ok⟩ := by
    simp [mainLoop, hs, shutdownTail]
  have h2 : channelMessages (Message.notification ⟨"exit", p2⟩ :: more)
      = [Message.notification ⟨"exit", p2⟩] := by
    simp [channelMessages]
  refine ⟨h1, by rw [h1]; rfl, ?_, ?_⟩
  · rw [h2]; rfl
  · rw [h2]; rfl

/-- C5 witness: the concrete shutdown request (id 9) followed by exit
ends the loop with the ok response, and a concrete bare exit drains the
channel; in both cases the process then hangs in the join. -/
theorem C5_witness :
    mainLoop [Message.request ⟨RequestId.num 9, "shutdown", Json.null⟩,
        Message.notification ⟨"exit", Json.null⟩]
        = ⟨[Message.response ⟨RequestId.num 9, some Json.null, none⟩],
           Outcome.ok⟩ ∧
    processEnd (mainLoop [Message.request
        ⟨RequestId.num 9, "shutdown", Json.null⟩,
        Message.notification ⟨"exit", Json.null⟩]).outcome
        = ProcessEnd.hangs ∧
    mainLoop (channelMessages [Message.notification ⟨"exit", Json.null⟩])
        = ⟨[], Outcome.ok⟩ ∧
    processEnd (mainLoop (channelMessages
        [Message.notification ⟨"exit", Json.null⟩])).outcome
        = ProcessEnd.hangs :=
  C5_shutdown_exit_and_bare_exit
    ⟨RequestId.num 9, "shutdown", Json.null⟩ Json.null Json.null [] [] rfl

/-- C8: the capabilities payload advertises exactly two capabilities —
the definition provider (`OneOf::Left(true)`) and the code-action
provider (`Simple(true)`) — with every other capability field left at its
default `None`, so the serialized payload is precisely the two-key
object. -/
theorem C8_capabilities_exactly_two :
    serverCapabilities.definition_provider = some (OneOf.left true) ∧
    serverCapabilities.code_action_provider
        = some (CodeActionProviderCapability.simple true) ∧
    serverCapabilities.position_encoding = none ∧
    serverCapabilities.text_document_sync = none ∧
    serverCapabilities.selection_range_provider = none ∧
    serverCapabilities.hover_provider = none ∧
    serverCapabilities.completion_provider = none ∧
    serverCapabilities.signature_help_provider = none ∧
    serverCapabilities.type_definition_provider = none ∧
    serverCapabilities.implementation_provider = none ∧
    serverCapabilities.references_provider = none ∧
    serverCapabilities.document_highlight_provider = none ∧
    serverCapabilities.document_symbol_provider = none ∧
    serverCapabilities.workspace_symbol_provider = none ∧
    serverCapabilities.code_lens_provider = none ∧
    serverCapabilities.document_formatting_provider = none ∧
    serverCapabilities.document_range_formatting_provider = none ∧
    serverCapabilities.document_on_type_formatting_provider = none ∧
    serverCapabilities.rename_provider = none ∧
    serverCapabilities.document_link_provider = none ∧
    serverCapabilities.color_provider = none ∧
    serverCapabilities.folding_range_provider = none ∧
    serverCapabilities.declaration_provider = none ∧
    serverCapabilities.execute_command_provider = none ∧
    serverCapabilities.workspace = none ∧
    serverCapabilities.call_hierarchy_provider = none ∧
    serverCapabilities.semantic_tokens_provider = none ∧
    serverCapabilities.moniker_provider = none ∧
    serverCapabilities.linked_editing_range_provider = none ∧
    serverCapabilities.inline_value_provider = none ∧
    serverCapabilities.inlay_hint_provider = none ∧
    serverCapabilities.diagnostic_provider = none ∧
    serverCapabilities.experimental = none ∧
    serverCapabilitiesJson
        = Json.obj [("definitionProvider", Json.bool true),
                    ("codeActionProvider", Json.bool true)] :=
  ⟨rfl, rfl, rfl, rfl, rfl, rfl, rfl, rfl, rfl, rfl, rfl, rfl, rfl, rfl,
   rfl, rfl, rfl, rfl, rfl, rfl, rfl, rfl, rfl, rfl, rfl, rfl, rfl, rfl,
   rfl, rfl, rfl, rfl, rfl, rfl⟩
